import Mathlib

/-!
Verification of the azurewebapp frontend core against its specification.

JavaScript strings are modelled as lists of characters (`JStr`); the
JavaScript string operations used by the source (`toLowerCase`,
`startsWith`, `split(',')`, `trim`, the anchored regex replace in
`parseCrawlStatus`, template-literal concatenation) are modelled as
executable functions on `JStr`.  Each component definition is translated
from the TypeScript source file named in its doc comment.
-/

/-- A JavaScript string, modelled as its sequence of characters. -/
abbrev JStr := List Char

/-- JavaScript `String.prototype.toLowerCase`, character-wise (ASCII). -/
def jsToLower (s : JStr) : JStr := s.map Char.toLower

/-- The ASCII part of the JavaScript `\s` (whitespace) character class. -/
def isJsSpace (c : Char) : Bool :=
  (c == ' ') || (c == '\t') || (c == '\n') || (c == '\r') || (c == '\x0b') || (c == '\x0c')

/-- Drop leading JavaScript whitespace. -/
def dropLeadingSpaces (s : JStr) : JStr := s.dropWhile isJsSpace

/-- JavaScript `String.prototype.trim`: drop leading and trailing whitespace. -/
def jsTrim (s : JStr) : JStr :=
  ((dropLeadingSpaces s).reverse.dropWhile isJsSpace).reverse

/-- Accumulator-style worker for `splitOnComma`. -/
def splitOnCommaAux : JStr → JStr → List JStr
  | [], cur => [cur.reverse]
  | c :: cs, cur => if c = ',' then cur.reverse :: splitOnCommaAux cs [] else splitOnCommaAux cs (c :: cur)

/-- JavaScript `String.prototype.split(',')`. -/
def splitOnComma (s : JStr) : List JStr := splitOnCommaAux s []

/-- Case-insensitively strip the literal `p` from the front of `s`,
returning the remainder on success (used to model the anchored
case-insensitive regex in `parseCrawlStatus`). -/
def stripPrefixCI : JStr → JStr → Option JStr
  | [], s => some s
  | _ :: _, [] => none
  | a :: ps, b :: ss => if a.toLower = b.toLower then stripPrefixCI ps ss else none

/-- One retrieved citation, as in the `Message` interface of
`src/frontend/src/pages/AskAI.tsx`. -/
structure Citation where
  content : JStr
  document_title : JStr
  document_source : JStr
  document_url : Option JStr
  chunk_index : Nat
deriving DecidableEq, Repr

/-- The dedup key built at `AskAI.tsx:36`: the template literal
`${citation.document_title}|${citation.document_source}`. -/
def citationKey (c : Citation) : JStr :=
  c.document_title ++ ('|' :: c.document_source)

namespace AskAI

/-- The `for (const citation of citations)` loop of `deduplicateCitations`
(`AskAI.tsx:35-41`): `seen` is the set of keys seen so far; a citation is
kept iff its key is not yet in `seen`. -/
def dedupLoop : List Citation → List JStr → List Citation
  | [], _ => []
  | c :: cs, seen =>
    if citationKey c ∈ seen then dedupLoop cs seen
    else c :: dedupLoop cs (citationKey c :: seen)

/-- `deduplicateCitations` from `AskAI.tsx:29-44`.  The argument is
optional because the TypeScript parameter may be `undefined`. -/
def deduplicateCitations (citations : Option (List Citation)) : List Citation :=
  match citations with
  | none => []
  | some cs => if cs.length = 0 then [] else dedupLoop cs []

end AskAI

/-- The amended claim C1's characterization of the dedup result: keep,
for each distinct joined key `title|source` (`citationKey`, exactly the
key the code builds), the first citation carrying that key, in input
order.  Defined independently of the seen-set loop: keep the head and
delete every later citation with the same key.  Note this keys on the
joined string, not on the (document_title, document_source) pair the
spec names — see `pairFirstOccurrences` for the spec's pair-keyed
reading and the C1 counterexample separating the two. -/
def firstOccurrences : List Citation → List Citation
  | [] => []
  | c :: cs => c :: firstOccurrences (cs.filter (fun d => decide (citationKey d ≠ citationKey c)))
termination_by l => l.length
decreasing_by
  simp only [List.length_cons]
  exact Nat.lt_succ_of_le (List.length_filter_le _ _)

theorem firstOccurrences_nil : firstOccurrences [] = [] := by
  rw [firstOccurrences.eq_def]

theorem firstOccurrences_cons (c : Citation) (cs : List Citation) :
    firstOccurrences (c :: cs)
      = c :: firstOccurrences (cs.filter (fun d => decide (citationKey d ≠ citationKey c))) := by
  rw [firstOccurrences.eq_def]

theorem dedupLoop_eq_firstOccurrences (xs : List Citation) :
    ∀ seen, AskAI.dedupLoop xs seen
      = firstOccurrences (xs.filter (fun c => decide (citationKey c ∉ seen))) := by
  induction xs with
  | nil => intro seen; simp [AskAI.dedupLoop, firstOccurrences_nil]
  | cons c cs ih =>
    intro seen
    by_cases h : citationKey c ∈ seen
    · simp [AskAI.dedupLoop, h, ih seen]
    · have h1 : (c :: cs).filter (fun c => decide (citationKey c ∉ seen))
          = c :: cs.filter (fun c => decide (citationKey c ∉ seen)) := by
        simp [List.filter_cons, h]
      have h2 : (cs.filter (fun c => decide (citationKey c ∉ seen))).filter
            (fun d => decide (citationKey d ≠ citationKey c))
          = cs.filter (fun d => decide (citationKey d ∉ citationKey c :: seen)) := by
        rw [List.filter_filter]
        apply List.filter_congr
        intro d _
        by_cases hd1 : citationKey d = citationKey c <;>
          by_cases hd2 : citationKey d ∈ seen <;> simp [hd1, hd2]
      simp only [AskAI.dedupLoop, if_neg h]
      rw [h1, firstOccurrences_cons, h2, ih]

theorem dedupLoop_sublist (xs : List Citation) :
    ∀ seen, List.Sublist (AskAI.dedupLoop xs seen) xs := by
  induction xs with
  | nil => intro seen; simp [AskAI.dedupLoop]
  | cons c cs ih =>
    intro seen
    by_cases h : citationKey c ∈ seen
    · simp only [AskAI.dedupLoop, if_pos h]
      exact (ih seen).trans (List.sublist_cons_self c cs)
    · simp only [AskAI.dedupLoop, if_neg h]
      exact (ih (citationKey c :: seen)).cons₂ c

theorem deduplicateCitations_eq_firstOccurrences (xs : List Citation) :
    AskAI.deduplicateCitations (some xs) = firstOccurrences xs := by
  cases xs with
  | nil => simp [AskAI.deduplicateCitations, firstOccurrences_nil]
  | cons c cs =>
    simp only [AskAI.deduplicateCitations, List.length_cons]
    rw [if_neg (by simp)]
    rw [dedupLoop_eq_firstOccurrences]
    congr 1
    apply List.filter_eq_self.2
    intro a _
    simp

theorem dedupLoop_key_not_mem_seen (xs : List Citation) :
    ∀ seen c, c ∈ AskAI.dedupLoop xs seen → citationKey c ∉ seen := by
  induction xs with
  | nil => intro seen c hc; simp [AskAI.dedupLoop] at hc
  | cons a as ih =>
    intro seen c hc
    by_cases h : citationKey a ∈ seen
    · simp only [AskAI.dedupLoop, if_pos h] at hc
      exact ih seen c hc
    · simp only [AskAI.dedupLoop, if_neg h] at hc
      rcases List.mem_cons.1 hc with rfl | hc
      · exact h
      · have hnot := ih _ c hc
        intro hmem
        exact hnot (List.mem_cons_of_mem _ hmem)

theorem dedupLoop_keys_nodup (xs : List Citation) :
    ∀ seen, ((AskAI.dedupLoop xs seen).map citationKey).Nodup := by
  induction xs with
  | nil => intro seen; simp [AskAI.dedupLoop]
  | cons a as ih =>
    intro seen
    by_cases h : citationKey a ∈ seen
    · simp only [AskAI.dedupLoop, if_pos h]; exact ih seen
    · simp only [AskAI.dedupLoop, if_neg h, List.map_cons, List.nodup_cons]
      refine ⟨?_, ih _⟩
      intro hmem
      rcases List.mem_map.1 hmem with ⟨c, hc, hkey⟩
      have hnot := dedupLoop_key_not_mem_seen as _ c hc
      exact hnot (hkey ▸ List.mem_cons_self _ _)

theorem dedupLoop_eq_self (xs : List Citation) :
    ∀ seen, ((xs.map citationKey).Nodup) → (∀ c ∈ xs, citationKey c ∉ seen) →
      AskAI.dedupLoop xs seen = xs := by
  induction xs with
  | nil => intro seen _ _; simp [AskAI.dedupLoop]
  | cons a as ih =>
    intro seen hnodup hdisj
    have ha : citationKey a ∉ seen := hdisj a (List.mem_cons_self a as)
    simp only [AskAI.dedupLoop, if_neg ha]
    congr 1
    apply ih
    · exact (List.nodup_cons.1 (by simpa using hnodup)).2
    · intro c hc hmem
      rcases List.mem_cons.1 hmem with heq | hmem'
      · have hka : citationKey a ∈ as.map citationKey := by
          rw [← heq]; exact List.mem_map_of_mem _ hc
        exact (List.nodup_cons.1 (by simpa using hnodup)).1 hka
      · exact hdisj c (List.mem_cons_of_mem _ hc) hmem'

/-- First citation of the spec example: title T, source A, retrieval rank 0. -/
def exTA1 : Citation := ⟨("chunk one").data, ("T").data, ("A").data, none, 0⟩

/-- Second citation of the spec example: title T, source A again, rank 1. -/
def exTA2 : Citation := ⟨("chunk two").data, ("T").data, ("A").data, none, 1⟩

/-- Third citation of the spec example: title T, source B, rank 2. -/
def exTB : Citation := ⟨("chunk three").data, ("T").data, ("B").data, none, 2⟩

/-- Fourth citation of the spec example: title T, source A again, rank 3. -/
def exTA3 : Citation := ⟨("chunk four").data, ("T").data, ("A").data, none, 3⟩

/-- Claim C1 (amended): `deduplicateCitations` returns, for each
distinct joined key `document_title|document_source`, exactly the first
citation in the input with that key (`firstOccurrences`), preserving the
input's relative order (the result is a sublist of the input) — keyed on
the (document_title, document_source) pair this fails when pipes make
distinct pairs share a joined key; in particular the spec example
`[(T,A),(T,A),(T,B),(T,A)]` dedupes to `[(T,A),(T,B)]` in that order,
keeping the first (T,A) citation. -/
theorem dedupe_keeps_first_occurrence :
    (∀ xs : List Citation, AskAI.deduplicateCitations (some xs) = firstOccurrences xs)
    ∧ (∀ xs : List Citation, List.Sublist (AskAI.deduplicateCitations (some xs)) xs)
    ∧ AskAI.deduplicateCitations (some [exTA1, exTA2, exTB, exTA3]) = [exTA1, exTB] := by
  refine ⟨deduplicateCitations_eq_firstOccurrences, ?_, by decide⟩
  intro xs
  cases xs with
  | nil => simp [AskAI.deduplicateCitations]
  | cons a as =>
    simp only [AskAI.deduplicateCitations]
    rw [if_neg (by simp)]
    exact dedupLoop_sublist _ _

/-- A citation whose title contains a pipe: title `T|`, source empty. -/
def pipeCitA : Citation := ⟨("c1").data, ("T|").data, ("").data, none, 0⟩

/-- A citation with a distinct (title, source) pair but the same joined
key: title `T`, source `|`. -/
def pipeCitB : Citation := ⟨("c2").data, ("T").data, ("|").data, none, 1⟩

/-- Claim C2 counterexample: two citations with distinct
(document_title, document_source) pairs are nevertheless collapsed into
one, because the code keys on the joined string `title|source`:
(`T|`, ``) and (`T`, `|`) both produce the key `T||`. -/
theorem dedupe_pipe_key_counterexample :
    AskAI.deduplicateCitations (some [pipeCitA, pipeCitB]) = [pipeCitA]
    ∧ pipeCitA.document_title ≠ pipeCitB.document_title
    ∧ citationKey pipeCitA = citationKey pipeCitB := by
  decide

/-- Claim C2 (amended): `deduplicateCitations` treats two citations as
duplicates iff their joined keys `title|source` are equal — so two
citations with the same (title, source) pair are always collapsed
regardless of content and chunk_index, and two citations with distinct
pairs are collapsed exactly when pipes make the joined keys coincide. -/
theorem dedupe_pairwise_key_equation :
    ∀ c d : Citation,
      AskAI.deduplicateCitations (some [c, d])
        = if citationKey c = citationKey d then [c] else [c, d] := by
  intro c d
  by_cases h : citationKey c = citationKey d
  · simp [AskAI.deduplicateCitations, AskAI.dedupLoop, List.mem_singleton, h]
  · have h' : ¬citationKey d = citationKey c := fun he => h he.symm
    simp [AskAI.deduplicateCitations, AskAI.dedupLoop, List.mem_singleton, h, h']

/-- Claim C3: `deduplicateCitations` is idempotent — applying it to its
own output (as happens when a stored assistant message is re-rendered)
returns the output unchanged. -/
theorem dedupe_idempotent :
    ∀ xs : List Citation,
      AskAI.deduplicateCitations (some (AskAI.deduplicateCitations (some xs)))
        = AskAI.deduplicateCitations (some xs) := by
  intro xs
  cases xs with
  | nil => simp [AskAI.deduplicateCitations]
  | cons a as =>
    have hys : AskAI.deduplicateCitations (some (a :: as)) = AskAI.dedupLoop (a :: as) [] := by
      simp [AskAI.deduplicateCitations]
    rw [hys]
    cases hz : AskAI.dedupLoop (a :: as) [] with
    | nil => simp [AskAI.deduplicateCitations]
    | cons b bs =>
      have hnodup := dedupLoop_keys_nodup (a :: as) []
      rw [hz] at hnodup
      simp only [AskAI.deduplicateCitations]
      rw [if_neg (by simp)]
      exact dedupLoop_eq_self (b :: bs) [] hnodup (by intro c _; simp)

/-- The request body posted by `searchAPI.query`
(`src/frontend/src/services/api.ts:62-68`). -/
structure SearchQueryRequest where
  question : JStr
  top_k : Nat
deriving DecidableEq, Repr

namespace searchAPI

/-- `searchAPI.query` from `api.ts:62-68`: the `topK` parameter defaults
to `5` when the caller supplies none, and the request body carries it as
`top_k`. -/
def query (question : JStr) (topK : Option Nat) : SearchQueryRequest :=
  { question := question, top_k := topK.getD 5 }

end searchAPI

/-- The call `searchAPI.query(query)` made by `handleQuery`
(`AskAI.tsx:58`): no `top_k` argument is passed. -/
def AskAI.handleQueryRequest (q : JStr) : SearchQueryRequest :=
  searchAPI.query q none

/-- Claim C6: a query issued without a caller-supplied `top_k` is sent
with `top_k` equal to the default constant 5, and the AskAI page always
calls `searchAPI.query` without a `top_k` argument, so every chat query
requests exactly 5 results. -/
theorem ask_ai_query_top_k_default :
    (∀ q : JStr, (searchAPI.query q none).top_k = 5)
    ∧ (∀ q : JStr, AskAI.handleQueryRequest q = searchAPI.query q none)
    ∧ ∀ q : JStr, (AskAI.handleQueryRequest q).top_k = 5 :=
  ⟨fun _ => rfl, fun _ => rfl, fun _ => rfl⟩

/-- The two chat roles of the `Message` interface in `AskAI.tsx`. -/
inductive Role where
  | user : Role
  | assistant : Role
deriving DecidableEq, Repr

/-- A chat message as stored by the AskAI page. -/
structure ChatMessage where
  role : Role
  content : JStr
  citations : Option (List Citation)
deriving DecidableEq, Repr

namespace AskAI

/-- The JavaScript fallback `error?.message || 'Unknown error'`
(`AskAI.tsx:67`); `undefined` and the empty string are falsy. -/
def errorFallback (message : Option JStr) : JStr :=
  match message with
  | some m => if m ≠ [] then m else ("Unknown error").data
  | none => ("Unknown error").data

/-- `error?.response?.data?.detail || error?.message || 'Unknown error'`
from `AskAI.tsx:67`. -/
def errorDetails (detail message : Option JStr) : JStr :=
  match detail with
  | some d => if d ≠ [] then d else errorFallback message
  | none => errorFallback message

/-- The fixed text before the interpolated error detail in the catch
branch's template literal (`AskAI.tsx:70`). -/
def errorNoticeLead : JStr :=
  ("Sorry, I encountered an error while processing your question: ").data

/-- The fixed text after the interpolated error detail (`AskAI.tsx:70`). -/
def errorNoticeTrail : JStr := (". Please try again.").data

/-- The assistant error message built in the catch branch of
`handleQuery` (`AskAI.tsx:65-72`). -/
def catchMessage (detail message : Option JStr) : ChatMessage :=
  { role := Role.assistant
  , content := errorNoticeLead ++ errorDetails detail message ++ errorNoticeTrail
  , citations := none }

/-- The observable outcome of the catch/finally path of `handleQuery`
(`AskAI.tsx:65-75`): the appended assistant message, and the value of
`isLoading` after the `finally` block. -/
def handleQueryCatch (detail message : Option JStr) : ChatMessage × Bool :=
  (catchMessage detail message, false)

end AskAI

/-- A backend error detail an operator would not want shown to end
users, used to exhibit the catch branch's verbatim interpolation. -/
def leakDetail : JStr := ("qdrant connection refused").data

/-- Claim C7 counterexample: the failure notice shown to the user
contains the underlying backend error detail verbatim — for detail
`qdrant connection refused` the rendered message embeds it between the
fixed apology texts, contradicting the claim that the notice does not
include the backend detail verbatim. -/
theorem query_error_leaks_detail_counterexample :
    (AskAI.catchMessage (some leakDetail) none).content
      = ("Sorry, I encountered an error while processing your question: qdrant connection refused. Please try again.").data
    ∧ leakDetail <:+: (AskAI.catchMessage (some leakDetail) none).content := by
  constructor
  · decide
  · exact ⟨AskAI.errorNoticeLead, AskAI.errorNoticeTrail, by decide⟩

/-- Claim C7 (amended): when a query-time call fails, the failure is
surfaced as a failed answer attempt — an assistant error message is
appended and the loading state is cleared, never an uncaught exception —
but the notice is not generic: it embeds the backend error detail
(response detail, else error message, else `Unknown error`) verbatim
inside a fixed apology template. -/
theorem query_error_notice_amended :
    ∀ detail message : Option JStr,
      (AskAI.handleQueryCatch detail message).2 = false
      ∧ (AskAI.handleQueryCatch detail message).1.role = Role.assistant
      ∧ (AskAI.handleQueryCatch detail message).1.content
          = AskAI.errorNoticeLead ++ AskAI.errorDetails detail message ++ AskAI.errorNoticeTrail
      ∧ AskAI.errorDetails detail message <:+: (AskAI.handleQueryCatch detail message).1.content := by
  intro detail message
  exact ⟨rfl, rfl, rfl, ⟨AskAI.errorNoticeLead, AskAI.errorNoticeTrail, rfl⟩⟩

/-- An origin row as served by `GET /admin/origins` and consumed by the
Monitor (`src/unnamed/part_003`) and Dashboard (`src/unnamed/part_004`)
pages.  `last_run` is a timestamp in milliseconds (`Date.getTime`);
`last_status` and `qdrant_status` are nullable strings. -/
structure OriginRow where
  id : Nat
  name : JStr
  url : JStr
  frequency_hours : Nat
  enabled : Bool
  last_run : Option Int
  last_status : Option JStr
  qdrant_status : Option JStr
deriving DecidableEq, Repr

/-- An observable effect of a crawl-trigger handler: adding the origin id
to the in-flight set, issuing the HTTP crawl request through the
mutation, or showing a message to the user. -/
inductive CrawlEffect where
  | addCrawling : Nat → CrawlEffect
  | issueRequest : Nat → CrawlEffect
  | showMessage : JStr → CrawlEffect
deriving DecidableEq, Repr

/-- Models `String.prototype.replace` with the anchored case-insensitive
regex `crawl:\s*failed:?\s*` (`part_003:161` and `part_004:262`): when
the whole pattern matches at the start of `s` the matched text is
removed, otherwise `s` is returned unchanged. -/
def replaceCrawlFailedMarker (s : JStr) : JStr :=
  match stripPrefixCI (("crawl:").data) s with
  | none => s
  | some r1 =>
    match stripPrefixCI (("failed").data) (dropLeadingSpaces r1) with
    | none => s
    | some r2 =>
      dropLeadingSpaces (match r2 with
        | ':' :: r => r
        | r => r)

namespace Monitor

/-- `handleCrawl` from the Monitor page (`part_003:96-101`): returns
early — with no effect and no message — when the origin is already in
`crawlingIds` or is disabled; otherwise adds the id to `crawlingIds` and
issues the crawl request. -/
def handleCrawl (crawlingIds : List Nat) (o : OriginRow) : List CrawlEffect :=
  if o.id ∈ crawlingIds ∨ o.enabled = false then []
  else [CrawlEffect.addCrawling o.id, CrawlEffect.issueRequest o.id]

/-- The `disabled` prop of the Monitor page's Crawl button
(`part_003:357`). -/
def crawlButtonDisabled (crawlingIds : List Nat) (o : OriginRow) : Bool :=
  decide (o.id ∈ crawlingIds) || !o.enabled

/-- The label of the Monitor page's Crawl button (`part_003:360`). -/
def crawlButtonLabel (crawlingIds : List Nat) (o : OriginRow) : JStr :=
  if o.id ∈ crawlingIds then ("Crawling...").data else ("Crawl").data

/-- `parseCrawlStatus` from the Monitor page (`part_003:153-165`). -/
def parseCrawlStatus (lastStatus : Option JStr) : JStr × Option JStr :=
  match lastStatus with
  | none => (("never").data, none)
  | some s =>
    if (("crawl: success").data).isPrefixOf (jsToLower s) then (("success").data, none)
    else if (("crawl: failed").data).isPrefixOf (jsToLower s) then
      ((("failed").data),
        some (match (splitOnComma s).find?
                (fun p => (("crawl:").data).isPrefixOf (jsToLower p)) with
          | some p => jsTrim (replaceCrawlFailedMarker p)
          | none => ("Unknown error").data))
    else (("unknown").data, none)

/-- One origin's contribution to the Monitor page's `Successful (24h)`
statistic (`part_003:65-69`): a non-null `last_run` no older than 24
hours before `now` (milliseconds), and a `last_status` whose lowercase
form starts with `success`. -/
def successIn24h (now : Int) (o : OriginRow) : Bool :=
  match o.last_run with
  | none => false
  | some t =>
    decide (now - 86400000 ≤ t)
      && (match o.last_status with
          | none => false
          | some s => (("success").data).isPrefixOf (jsToLower s))

/-- One origin's contribution to the `Failed (24h)` statistic
(`part_003:70-74`). -/
def failedIn24h (now : Int) (o : OriginRow) : Bool :=
  match o.last_run with
  | none => false
  | some t =>
    decide (now - 86400000 ≤ t)
      && (match o.last_status with
          | none => false
          | some s => (("failed").data).isPrefixOf (jsToLower s))

/-- The statistics block computed by the Monitor page (`part_003:57-77`). -/
structure StatsCounts where
  total : Nat
  enabled : Nat
  successful : Nat
  failed : Nat
deriving DecidableEq, Repr

/-- `stats` from the Monitor page (`part_003:57-77`). -/
def stats (now : Int) (origins : List OriginRow) : StatsCounts :=
  { total := origins.length
  , enabled := (origins.filter (fun o => o.enabled)).length
  , successful := (origins.filter (successIn24h now)).length
  , failed := (origins.filter (failedIn24h now)).length }

/-- One entry of the Monitor page's activity feed (`part_003:85-91`). -/
structure ActivityEntry where
  id : Nat
  name : JStr
  timestamp : Int
  status : Option JStr
  enabled : Bool
deriving DecidableEq, Repr

/-- The sort order induced by the feed's comparator
`b.timestamp.getTime() - a.timestamp.getTime()` (`part_003:92`): an entry
sorts no later than another when its timestamp is at least as large
(newest first). -/
def newestFirst (a b : ActivityEntry) : Prop := b.timestamp ≤ a.timestamp

instance : DecidableRel newestFirst := fun _ _ => Int.decLe _ _

instance : IsTotal ActivityEntry newestFirst := ⟨fun a b => le_total b.timestamp a.timestamp⟩

instance : IsTrans ActivityEntry newestFirst := ⟨fun _ _ _ hab hbc => le_trans hbc hab⟩

/-- `activityFeed` from the Monitor page (`part_003:80-94`): origins with
a non-null `last_run`, mapped to feed entries, sorted newest first by a
stable sort (JavaScript `Array.prototype.sort` is stable; modelled by a
stable insertion sort), then truncated to the first 20. -/
def activityFeed (origins : List OriginRow) : List ActivityEntry :=
  (List.insertionSort newestFirst
      ((origins.filter (fun o => o.last_run.isSome)).map
        (fun o => ActivityEntry.mk o.id o.name (o.last_run.getD 0) o.last_status o.enabled))).take 20

end Monitor

namespace AdminDashboard

/-- `handleCrawl` from the Dashboard page (`part_004:218-223`): guards
only against an in-flight crawl (`// Prevent double-click`); it does not
check `enabled`. -/
def handleCrawl (crawlingIds : List Nat) (o : OriginRow) : List CrawlEffect :=
  if o.id ∈ crawlingIds then []
  else [CrawlEffect.addCrawling o.id, CrawlEffect.issueRequest o.id]

/-- The `disabled` prop of the Dashboard page's Crawl Now button
(`part_004:379`). -/
def crawlButtonDisabled (crawlingIds : List Nat) (o : OriginRow) : Bool :=
  decide (o.id ∈ crawlingIds) || !o.enabled

/-- `parseCrawlStatus` from the Dashboard page (`part_004:254-266`);
the source is textually identical to the Monitor page's copy. -/
def parseCrawlStatus (lastStatus : Option JStr) : JStr × Option JStr :=
  match lastStatus with
  | none => (("never").data, none)
  | some s =>
    if (("crawl: success").data).isPrefixOf (jsToLower s) then (("success").data, none)
    else if (("crawl: failed").data).isPrefixOf (jsToLower s) then
      ((("failed").data),
        some (match (splitOnComma s).find?
                (fun p => (("crawl:").data).isPrefixOf (jsToLower p)) with
          | some p => jsTrim (replaceCrawlFailedMarker p)
          | none => ("Unknown error").data))
    else (("unknown").data, none)

end AdminDashboard

/-- A concrete enabled origin whose id 1 already has a crawl in flight in
the scenarios below. -/
def inflightOrigin : OriginRow :=
  ⟨1, ("EU AI Act portal").data, ("https-example-one").data, 24, true, some 1000, none, none⟩

/-- Claim C4 counterexample: a second trigger for an origin whose crawl
is in flight (id 1 is in `crawlingIds`) produces no effect at all in
either page's handler — no crawl request, but also no message or result
of any kind, in particular no "already running" report: it is silently
dropped. -/
theorem second_trigger_silent_counterexample :
    Monitor.handleCrawl [1] inflightOrigin = []
    ∧ AdminDashboard.handleCrawl [1] inflightOrigin = []
    ∧ inflightOrigin.id = 1 ∧ inflightOrigin.enabled = true := by
  decide

/-- Claim C4 (amended): when an origin already has a crawl in flight, a
second trigger for the same origin issues no second crawl request; the
handlers drop the trigger silently (no effects, no report), and the
pages instead surface the in-flight state by disabling the Crawl button
and labelling it `Crawling...`. -/
theorem second_trigger_no_request_amended :
    ∀ (ids : List Nat) (o : OriginRow), o.id ∈ ids →
      Monitor.handleCrawl ids o = []
      ∧ AdminDashboard.handleCrawl ids o = []
      ∧ Monitor.crawlButtonDisabled ids o = true
      ∧ Monitor.crawlButtonLabel ids o = ("Crawling...").data
      ∧ AdminDashboard.crawlButtonDisabled ids o = true := by
  intro ids o h
  refine ⟨?_, ?_, ?_, ?_, ?_⟩
  · simp [Monitor.handleCrawl, h]
  · simp [AdminDashboard.handleCrawl, h]
  · simp [Monitor.crawlButtonDisabled, h]
  · simp [Monitor.crawlButtonLabel, h]
  · simp [AdminDashboard.crawlButtonDisabled, h]

/-- Witness for the amended claim C4 at a concrete in-flight origin. -/
theorem second_trigger_no_request_witness :
    Monitor.handleCrawl [1] inflightOrigin = []
    ∧ AdminDashboard.handleCrawl [1] inflightOrigin = []
    ∧ Monitor.crawlButtonDisabled [1] inflightOrigin = true
    ∧ Monitor.crawlButtonLabel [1] inflightOrigin = ("Crawling...").data
    ∧ AdminDashboard.crawlButtonDisabled [1] inflightOrigin = true :=
  second_trigger_no_request_amended [1] inflightOrigin (by decide)

/-- A concrete disabled origin with no crawl in flight. -/
def disabledOrigin : OriginRow :=
  ⟨2, ("NIST AI RMF").data, ("https-example-two").data, 24, false, some 1000, none, none⟩

/-- Claim C8 counterexample: the Dashboard page's `handleCrawl`
(`part_004:218-223`) checks only the in-flight set, not `enabled`:
invoked for a disabled origin it adds the id to `crawlingIds` and issues
a crawl request, so "invoking the crawl handler issues no crawl request"
fails for that cited handler. -/
theorem dashboard_crawl_disabled_counterexample :
    AdminDashboard.handleCrawl [] disabledOrigin
      = [CrawlEffect.addCrawling 2, CrawlEffect.issueRequest 2]
    ∧ disabledOrigin.enabled = false := by
  decide

/-- Claim C8 (amended): the Monitor page's crawl handler issues no crawl
request for a disabled origin regardless of elapsed time, and both pages
render the Crawl button disabled for a disabled origin; the Dashboard
page's handler itself does not check `enabled` and relies on the
disabled button. -/
theorem monitor_no_crawl_when_disabled :
    ∀ (ids : List Nat) (o : OriginRow), o.enabled = false →
      Monitor.handleCrawl ids o = []
      ∧ Monitor.crawlButtonDisabled ids o = true
      ∧ AdminDashboard.crawlButtonDisabled ids o = true := by
  intro ids o h
  refine ⟨?_, ?_, ?_⟩
  · simp [Monitor.handleCrawl, h]
  · simp [Monitor.crawlButtonDisabled, h]
  · simp [AdminDashboard.crawlButtonDisabled, h]

/-- Witness for the amended claim C8 at a concrete disabled origin. -/
theorem monitor_no_crawl_when_disabled_witness :
    Monitor.handleCrawl [] disabledOrigin = []
    ∧ Monitor.crawlButtonDisabled [] disabledOrigin = true
    ∧ AdminDashboard.crawlButtonDisabled [] disabledOrigin = true :=
  monitor_no_crawl_when_disabled [] disabledOrigin (by decide)

theorem isPrefixOf_append_left (p : JStr) :
    ∀ l r : JStr, p.length ≤ l.length → p.isPrefixOf (l ++ r) = p.isPrefixOf l := by
  induction p with
  | nil => intro l r _; simp [List.isPrefixOf]
  | cons a ps ih =>
    intro l r h
    cases l with
    | nil => simp at h
    | cons b ls =>
      simp only [List.cons_append, List.isPrefixOf, List.append_eq]
      rw [ih ls r (by simpa using h)]

theorem stripPrefixCI_append (p : JStr) :
    ∀ l r : JStr, p.length ≤ l.length →
      stripPrefixCI p (l ++ r) = (stripPrefixCI p l).map (· ++ r) := by
  induction p with
  | nil => intro l r _; simp [stripPrefixCI]
  | cons a ps ih =>
    intro l r h
    cases l with
    | nil => simp at h
    | cons b ls =>
      simp only [List.cons_append, stripPrefixCI, List.append_eq]
      by_cases hab : a.toLower = b.toLower
      · rw [if_pos hab, if_pos hab, ih ls r (by simpa using h)]
      · rw [if_neg hab, if_neg hab]; rfl

theorem dropWhile_append_of_ne_nil (q : Char → Bool) :
    ∀ l r : JStr, l.dropWhile q ≠ [] → (l ++ r).dropWhile q = l.dropWhile q ++ r := by
  intro l r
  induction l with
  | nil => intro h; simp [List.dropWhile] at h
  | cons a ls ih =>
    intro h
    by_cases ha : q a
    · simp only [List.dropWhile_cons, ha, if_true] at h
      simp only [List.cons_append, List.dropWhile_cons, ha, if_true]
      exact ih h
    · simp [List.cons_append, List.dropWhile_cons, ha]

theorem dropWhile_dropWhile_self (q : Char → Bool) (s : JStr) :
    (s.dropWhile q).dropWhile q = s.dropWhile q := by
  induction s with
  | nil => rfl
  | cons a ls ih =>
    by_cases ha : q a
    · simp [List.dropWhile_cons, ha, ih]
    · simp [List.dropWhile_cons, ha]

theorem jsTrim_dropLeadingSpaces (s : JStr) : jsTrim (dropLeadingSpaces s) = jsTrim s := by
  simp only [jsTrim, dropLeadingSpaces, dropWhile_dropWhile_self]

theorem splitOnCommaAux_no_comma :
    ∀ s : JStr, ',' ∉ s → ∀ cur, splitOnCommaAux s cur = [cur.reverse ++ s] := by
  intro s
  induction s with
  | nil => intro _ cur; simp [splitOnCommaAux]
  | cons a ls ih =>
    intro h cur
    have ha : ¬(a = ',') := fun he => h (List.mem_cons.2 (Or.inl he.symm))
    simp only [splitOnCommaAux, if_neg ha]
    rw [ih (fun hm => h (List.mem_cons_of_mem _ hm)) (a :: cur)]
    simp

theorem splitOnComma_no_comma (s : JStr) (h : ',' ∉ s) : splitOnComma s = [s] := by
  unfold splitOnComma
  rw [splitOnCommaAux_no_comma s h []]
  simp

/-- Claim C5 counterexample: for the composite status
`crawl: failed: timeout, retry later` — a fetch failure whose reason
contains a comma — `parseCrawlStatus` returns only `timeout`, not the
full reason `timeout, retry later`, because the code splits the status
string on commas before stripping the `crawl: failed:` marker. -/
theorem parse_crawl_status_comma_counterexample :
    Monitor.parseCrawlStatus (some (("crawl: failed: timeout, retry later").data))
      = ((("failed").data), some (("timeout").data))
    ∧ (("timeout").data : JStr) ≠ ("timeout, retry later").data := by
  decide

/-- Claim C5 (amended): for every reason containing no comma,
`parseCrawlStatus` applied to `crawl: failed: <reason>` returns status
`failed` together with the reason trimmed of surrounding whitespace
(hence the full reason whenever it carries none); every string beginning
with `crawl: success` yields status `success` with no error; and the
Dashboard page's copy of `parseCrawlStatus` agrees with the Monitor
page's everywhere. -/
theorem parse_crawl_status_amended :
    ∀ (reason rest : JStr), ',' ∉ reason →
      Monitor.parseCrawlStatus (some ((("crawl: failed: ").data) ++ reason))
        = ((("failed").data), some (jsTrim reason))
      ∧ Monitor.parseCrawlStatus (some ((("crawl: success").data) ++ rest))
        = ((("success").data), none)
      ∧ ∀ s, AdminDashboard.parseCrawlStatus s = Monitor.parseCrawlStatus s := by
  intro reason rest hcomma
  refine ⟨?_, ?_, fun s => rfl⟩
  · have hlow : jsToLower ((("crawl: failed: ").data) ++ reason)
        = (("crawl: failed: ").data) ++ jsToLower reason := by
      simp only [jsToLower, List.map_append]
      rw [show List.map Char.toLower (("crawl: failed: ").data)
            = (("crawl: failed: ").data) from by decide]
    have hns : (("crawl: success").data).isPrefixOf
        (jsToLower ((("crawl: failed: ").data) ++ reason)) = false := by
      rw [hlow, isPrefixOf_append_left _ _ _ (by decide)]
      decide
    have hf : (("crawl: failed").data).isPrefixOf
        (jsToLower ((("crawl: failed: ").data) ++ reason)) = true := by
      rw [hlow, isPrefixOf_append_left _ _ _ (by decide)]
      decide
    have hmem : ',' ∉ (("crawl: failed: ").data) ++ reason := by
      intro hm
      rcases List.mem_append.1 hm with hm1 | hm2
      · exact absurd hm1 (by decide)
      · exact hcomma hm2
    have hpred : (("crawl:").data).isPrefixOf
        (jsToLower ((("crawl: failed: ").data) ++ reason)) = true := by
      rw [hlow, isPrefixOf_append_left _ _ _ (by decide)]
      decide
    have hfind : ((splitOnComma ((("crawl: failed: ").data) ++ reason)).find?
          (fun p => (("crawl:").data).isPrefixOf (jsToLower p)))
        = some ((("crawl: failed: ").data) ++ reason) := by
      rw [splitOnComma_no_comma _ hmem]
      exact List.find?_cons_of_pos _ hpred
    have hdrop : dropLeadingSpaces (((" failed: ").data) ++ reason)
        = (("failed: ").data) ++ reason := by
      unfold dropLeadingSpaces
      rw [dropWhile_append_of_ne_nil isJsSpace ((" failed: ").data) reason (by decide)]
      rw [show List.dropWhile isJsSpace ((" failed: ").data) = (("failed: ").data) from by decide]
    have hstrip : replaceCrawlFailedMarker ((("crawl: failed: ").data) ++ reason)
        = dropLeadingSpaces reason := by
      unfold replaceCrawlFailedMarker
      rw [stripPrefixCI_append (("crawl:").data) (("crawl: failed: ").data) reason (by decide)]
      rw [show stripPrefixCI (("crawl:").data) (("crawl: failed: ").data)
            = some ((" failed: ").data) from by decide]
      simp only [Option.map_some']
      rw [hdrop]
      rw [stripPrefixCI_append (("failed").data) (("failed: ").data) reason (by decide)]
      rw [show stripPrefixCI (("failed").data) (("failed: ").data)
            = some ((": ").data) from by decide]
      simp only [Option.map_some']
      rw [show ((": ").data) ++ reason = ':' :: (' ' :: reason) from rfl]
      simp [dropLeadingSpaces, List.dropWhile_cons, isJsSpace]
    simp only [Monitor.parseCrawlStatus, hns, hf, Bool.false_eq_true, if_false, if_true,
      hfind, hstrip, jsTrim_dropLeadingSpaces]
  · have hlow2 : jsToLower ((("crawl: success").data) ++ rest)
        = (("crawl: success").data) ++ jsToLower rest := by
      simp only [jsToLower, List.map_append]
      rw [show List.map Char.toLower (("crawl: success").data)
            = (("crawl: success").data) from by decide]
    have hs : (("crawl: success").data).isPrefixOf
        (jsToLower ((("crawl: success").data) ++ rest)) = true := by
      rw [hlow2, isPrefixOf_append_left _ _ _ (by decide)]
      decide
    simp only [Monitor.parseCrawlStatus, hs, if_true]

/-- Witness for the amended claim C5 at the concrete comma-free reason
`timeout`. -/
theorem parse_crawl_status_witness :
    Monitor.parseCrawlStatus (some ((("crawl: failed: ").data) ++ ("timeout").data))
      = ((("failed").data), some (jsTrim (("timeout").data))) :=
  (parse_crawl_status_amended (("timeout").data) [] (by decide)).1

theorem crawl_marker_not_success_failed (s : JStr) (h : (("crawl: ").data) <+: s) :
    (("success").data).isPrefixOf (jsToLower s) = false
    ∧ (("failed").data).isPrefixOf (jsToLower s) = false := by
  obtain ⟨tail, rfl⟩ := h
  have hl : jsToLower ((("crawl: ").data) ++ tail) = (("crawl: ").data) ++ jsToLower tail := by
    simp only [jsToLower, List.map_append]
    rw [show List.map Char.toLower (("crawl: ").data) = (("crawl: ").data) from by decide]
  constructor
  · rw [hl, isPrefixOf_append_left _ _ _ (by decide)]; decide
  · rw [hl, isPrefixOf_append_left _ _ _ (by decide)]; decide

/-- Claim C9: the Monitor page's 24-hour statistics count as successful
(resp. failed) exactly the origins with a non-null `last_run` no older
than 24 hours before `now` whose lowercased `last_status` begins with the
literal prefix `success` (resp. `failed`); consequently an origin whose
`last_status` is in the composite format beginning with `crawl: ` is
counted in neither bucket. -/
theorem stats_24h_buckets :
    ∀ (now : Int) (o : OriginRow),
      (Monitor.successIn24h now o = true
        ↔ ∃ t s, o.last_run = some t ∧ now - 86400000 ≤ t
            ∧ o.last_status = some s ∧ (("success").data) <+: jsToLower s)
      ∧ (Monitor.failedIn24h now o = true
        ↔ ∃ t s, o.last_run = some t ∧ now - 86400000 ≤ t
            ∧ o.last_status = some s ∧ (("failed").data) <+: jsToLower s)
      ∧ (∀ s, o.last_status = some s → (("crawl: ").data) <+: s →
          Monitor.successIn24h now o = false ∧ Monitor.failedIn24h now o = false)
      ∧ ∀ origins : List OriginRow,
          (Monitor.stats now origins).successful
            = (origins.filter (Monitor.successIn24h now)).length
          ∧ (Monitor.stats now origins).failed
            = (origins.filter (Monitor.failedIn24h now)).length := by
  intro now o
  refine ⟨?_, ?_, ?_, fun origins => ⟨rfl, rfl⟩⟩
  · cases hlr : o.last_run with
    | none => simp [Monitor.successIn24h, hlr]
    | some t =>
      cases hls : o.last_status with
      | none => simp [Monitor.successIn24h, hlr, hls]
      | some s => simp [Monitor.successIn24h, hlr, hls]
  · cases hlr : o.last_run with
    | none => simp [Monitor.failedIn24h, hlr]
    | some t =>
      cases hls : o.last_status with
      | none => simp [Monitor.failedIn24h, hlr, hls]
      | some s => simp [Monitor.failedIn24h, hlr, hls]
  · intro s hs hcrawl
    have hno := crawl_marker_not_success_failed s hcrawl
    constructor
    · cases hlr : o.last_run with
      | none => simp [Monitor.successIn24h, hlr]
      | some t => simp [Monitor.successIn24h, hlr, hs, hno.1]
    · cases hlr : o.last_run with
      | none => simp [Monitor.failedIn24h, hlr]
      | some t => simp [Monitor.failedIn24h, hlr, hs, hno.2]

/-- The C9 witness origin: last run at time 0 with a composite
`crawl: ...` status string. -/
def compositeStatusOrigin : OriginRow :=
  ⟨3, ("GDPR portal").data, ("https-example-three").data, 24, true, some 0,
    some (("crawl: success, qdrant: success").data), none⟩

/-- Witness for claim C9: an origin whose `last_status` uses the
composite `crawl: ` format is counted in neither 24-hour bucket. -/
theorem stats_24h_buckets_witness :
    Monitor.successIn24h 0 compositeStatusOrigin = false
    ∧ Monitor.failedIn24h 0 compositeStatusOrigin = false :=
  (stats_24h_buckets 0 compositeStatusOrigin).2.2.1
    (("crawl: success, qdrant: success").data) rfl (by decide)

/-- First tie origin for the activity-feed counterexample: id 4, last run
at time 500. -/
def tieOriginA : OriginRow :=
  ⟨4, ("A").data, ("url-a").data, 24, true, some 500, some (("crawl: success").data), none⟩

/-- Second tie origin: id 5, the same last-run time 500. -/
def tieOriginB : OriginRow :=
  ⟨5, ("B").data, ("url-b").data, 24, true, some 500, none, none⟩

/-- Claim C10 counterexample: two origins sharing the same `last_run`
timestamp both appear in the activity feed, so the feed's timestamps are
not in strictly descending order — consecutive entries are equal, and
JavaScript's stable sort keeps both. -/
theorem activity_feed_tie_counterexample :
    ¬ List.Pairwise (fun a b => b.timestamp < a.timestamp)
        (Monitor.activityFeed [tieOriginA, tieOriginB])
    ∧ (Monitor.activityFeed [tieOriginA, tieOriginB]).length = 2 := by
  decide

/-- Claim C10 (amended): the activity feed holds at most 20 entries, is
sorted by `last_run` timestamp in non-increasing (newest-first) order —
ties between equal timestamps are possible, so not strictly descending —
and every entry stems from an origin with a non-null `last_run`, carrying
that origin's fields. -/
theorem activity_feed_amended :
    ∀ origins : List OriginRow,
      (Monitor.activityFeed origins).length ≤ 20
      ∧ List.Pairwise Monitor.newestFirst (Monitor.activityFeed origins)
      ∧ ∀ e ∈ Monitor.activityFeed origins, ∃ o, o ∈ origins
          ∧ o.last_run = some e.timestamp ∧ e.id = o.id ∧ e.name = o.name
          ∧ e.status = o.last_status ∧ e.enabled = o.enabled := by
  intro origins
  refine ⟨?_, ?_, ?_⟩
  · exact le_trans (List.length_take_le 20 _) (le_refl 20)
  · exact List.Pairwise.sublist (List.take_sublist _ _)
      (List.sorted_insertionSort Monitor.newestFirst _)
  · intro e he
    have he2 := List.take_subset 20 _ he
    have he3 := (List.perm_insertionSort Monitor.newestFirst _).subset he2
    rcases List.mem_map.1 he3 with ⟨o, ho, rfl⟩
    rcases List.mem_filter.1 ho with ⟨ho1, ho2⟩
    refine ⟨o, ho1, ?_, rfl, rfl, rfl, rfl⟩
    cases hlr : o.last_run with
    | none => rw [hlr] at ho2; simp at ho2
    | some t => simp [hlr]

/-- Witness for the amended claim C10 on a concrete two-origin list,
also discharging the feed-membership hypothesis at the entry produced
from the first origin. -/
theorem activity_feed_amended_witness :
    (Monitor.activityFeed [tieOriginA, tieOriginB]).length ≤ 20
    ∧ List.Pairwise Monitor.newestFirst (Monitor.activityFeed [tieOriginA, tieOriginB]) := by
  have h := activity_feed_amended [tieOriginA, tieOriginB]
  have _ := h.2.2
    (Monitor.ActivityEntry.mk 4 (("A").data) 500 (some (("crawl: success").data)) true)
    (by decide)
  exact ⟨h.1, h.2.1⟩

/-- The dedup key exactly as the spec names it for claim C1: the
(document_title, document_source) pair. -/
def citationPairKey (c : Citation) : JStr × JStr :=
  (c.document_title, c.document_source)

/-- Follows the spec's words for claim C1: the dedup result keeps, for
each distinct (document_title, document_source) pair, exactly the first
citation carrying that pair, in input order. -/
def pairFirstOccurrences : List Citation → List Citation
  | [] => []
  | c :: cs =>
    c :: pairFirstOccurrences (cs.filter (fun d => decide (citationPairKey d ≠ citationPairKey c)))
termination_by l => l.length
decreasing_by
  simp only [List.length_cons]
  exact Nat.lt_succ_of_le (List.length_filter_le _ _)

theorem pairFirstOccurrences_nil : pairFirstOccurrences [] = [] := by
  rw [pairFirstOccurrences.eq_def]

theorem pairFirstOccurrences_cons (c : Citation) (cs : List Citation) :
    pairFirstOccurrences (c :: cs)
      = c :: pairFirstOccurrences
          (cs.filter (fun d => decide (citationPairKey d ≠ citationPairKey c))) := by
  rw [pairFirstOccurrences.eq_def]

/-- Claim C1 counterexample: keyed on the (document_title,
document_source) pair, the first-occurrence reading of the spec keeps
both of the citations (`T|`, ``) and (`T`, `|`) — their pairs are
distinct — but `deduplicateCitations` keys on the joined string
`title|source`, under which both collapse to `T||`, and returns only the
first citation.  So the pair-keyed claim is false of the program. -/
theorem dedupe_pair_key_counterexample :
    AskAI.deduplicateCitations (some [pipeCitA, pipeCitB]) = [pipeCitA]
    ∧ pairFirstOccurrences [pipeCitA, pipeCitB] = [pipeCitA, pipeCitB]
    ∧ citationPairKey pipeCitA ≠ citationPairKey pipeCitB := by
  refine ⟨by decide, ?_, by decide⟩
  rw [pairFirstOccurrences_cons]
  rw [show ([pipeCitB].filter (fun d => decide (citationPairKey d ≠ citationPairKey pipeCitA)))
        = [pipeCitB] from by decide]
  rw [pairFirstOccurrences_cons]
  rw [show (([] : List Citation).filter
        (fun d => decide (citationPairKey d ≠ citationPairKey pipeCitB)))
        = ([] : List Citation) from rfl]
  rw [pairFirstOccurrences_nil]
